import Mathlib

/-
Verification of the rs-tiled map parser core: the GID-to-tileset resolution
algorithm, the tile rectangle computation, orientation parsing, frame
decoding, the layer-index assignment of the map builder, and the behaviour
of the path-less parse entry point.

The Rust sources embedded here are src/map.rs, src/animation.rs and
src/lib.rs.  Machine integers (u32) are modelled as Nat with explicit
reduction modulo 2^32 at every operation where the Rust code can wrap in a
release build; a Rust panic (division or remainder by zero) is modelled as
Except.error.  Structures whose defining file is not part of the provided
sources (Tileset, Image, the error enums, the attribute-extraction macro
and the tag-dispatch loop of util.rs) are modelled from the specification
and are marked as such in their doc comments.
-/

set_option autoImplicit false

namespace Tiled

/-- Wrap a natural number into the u32 range, the release-mode semantics of
Rust u32 arithmetic. -/
def wrap32 (n : Nat) : Nat := n % 4294967296

/-- The value of the Rust cast expression first_gid as i32 for a u32 value:
the two town halves of the u32 range map to nonnegative and negative i32
values respectively (map.rs lines 107 and 110-111 cast first_gid to i32). -/
def u32_as_i32 (n : Nat) : Int :=
  if n % 4294967296 < 2147483648 then ((n % 4294967296 : Nat) : Int)
  else ((n % 4294967296 : Nat) : Int) - 4294967296

/-- Wrapping u32 subtraction, the release-mode meaning of the Rust
expression a - b on u32 operands (map.rs line 125). -/
def u32_sub (a b : Nat) : Nat :=
  (wrap32 a + (4294967296 - wrap32 b)) % 4294967296

/-- Orientation enum from map.rs lines 144-150. -/
inductive Orientation where
  | Orthogonal
  | Isometric
  | Staggered
  | Hexagonal
deriving DecidableEq

/-- Modelled from the spec: error.rs is not among the provided sources; §7
names a ParseTileError kind with an orientation subkind. -/
inductive ParseTileError where
  | OrientationError
deriving DecidableEq

/-- Modelled from the spec: error.rs is not among the provided sources; §7
lists MalformedAttributes and Other as the error kinds the claims need. -/
inductive TiledError where
  | MalformedAttributes (msg : String)
  | Other (msg : String)
deriving DecidableEq

/-- FromStr for Orientation, map.rs lines 152-164: sequential exact
case-sensitive match against the four lowercase tokens. -/
def Orientation.from_str (s : String) : Except ParseTileError Orientation :=
  if s = "orthogonal" then Except.ok Orientation.Orthogonal
  else if s = "isometric" then Except.ok Orientation.Isometric
  else if s = "staggered" then Except.ok Orientation.Staggered
  else if s = "hexagonal" then Except.ok Orientation.Hexagonal
  else Except.error ParseTileError.OrientationError

/-- Display for Orientation, map.rs lines 166-175. -/
def Orientation.to_string : Orientation → String
  | Orientation.Orthogonal => "orthogonal"
  | Orientation.Isometric => "isometric"
  | Orientation.Staggered => "staggered"
  | Orientation.Hexagonal => "hexagonal"

/-- Modelled from the spec: image.rs is not among the provided sources; §3
and §4.4 only use the pixel width of a tileset image (map.rs line 127 reads
img.width and casts it to u32). -/
structure Image where
  width : Nat
  height : Nat
deriving DecidableEq

/-- Modelled from the spec: tileset.rs is not among the provided sources;
§3 lists the fields first_gid, tile width and height, spacing, margin and
the source images, which are exactly the fields map.rs reads. -/
structure Tileset where
  first_gid : Nat
  tile_width : Nat
  tile_height : Nat
  spacing : Nat
  margin : Nat
  images : List Image
deriving DecidableEq

/-- Frame struct from animation.rs lines 5-9. -/
structure Frame where
  tile_id : Nat
  duration : Nat
deriving DecidableEq

/-- Map struct from map.rs lines 15-32, restricted to the fields that the
operations under verification read.  The layer, image layer, object group,
properties and background colour collections are carried by types whose
defining files are not among the provided sources and no claim reads them,
so they are omitted from the model. -/
structure Map where
  version : String
  orientation : Orientation
  width : Nat
  height : Nat
  tile_width : Nat
  tile_height : Nat
  tilesets : List Tileset
  infinite : Bool
deriving DecidableEq

/-- Modelled from the spec: the attribute-extraction macro of util.rs is
not among the provided sources; §4.1 prescribes that each named field is
looked up in the attribute list with last-seen-wins on duplicate names. -/
def getAttr (attrs : List (String × String)) (name : String) : Option String :=
  attrs.foldl (fun acc p => if p.1 = name then some p.2 else acc) none

/-- Modelled from the spec: the conversion v.parse with u32 target used by
animation.rs line 17-18, i.e. the Rust standard library unsigned-integer
FromStr: an optional leading plus sign, then one or more ASCII digits,
rejecting the empty digit string and values outside the u32 range. -/
def parseU32 (s : String) : Option Nat :=
  let ds := match s.toList with
    | '+' :: rest => rest
    | cs => cs
  if ds.isEmpty then none
  else if ds.all Char.isDigit then
    let v := ds.foldl (fun a c => a * 10 + (c.toNat - 48)) 0
    if v < 4294967296 then some v else none
  else none

/-- Frame constructor from animation.rs lines 12-27: both tileid and
duration are required u32 attributes; a missing or unconvertible one
yields the MalformedAttributes error with the message of line 20. -/
def Frame.new (attrs : List (String × String)) : Except TiledError Frame :=
  match (getAttr attrs "tileid").bind parseU32,
        (getAttr attrs "duration").bind parseU32 with
  | some tile_id, some duration => Except.ok { tile_id := tile_id, duration := duration }
  | _, _ => Except.error (TiledError.MalformedAttributes "A frame must have tileid and duration")

/-- The infinite flag computed by Map constructor, map.rs lines 44 and
100-102: the optional attribute infinite converts through the closure
comparing the raw value with the literal string one, and the absent case
defaults to false through unwrap_or. -/
def map_infinite (attrs : List (String × String)) : Bool :=
  ((getAttr attrs "infinite").map (fun v => v == "1")).getD false

/-- The scan loop of Map.get_tileset_by_gid, map.rs lines 107-114: the
running maximum is an i32 initialised to -1 and each tileset is taken when
its first_gid cast to i32 strictly exceeds the running maximum and its
first_gid is at most the queried gid. -/
def gtbg_loop (gid : Nat) : List Tileset → Int → Option Tileset → Option Tileset
  | [], _, maximum_ts => maximum_ts
  | tileset :: rest, maximum_gid, maximum_ts =>
    if u32_as_i32 tileset.first_gid > maximum_gid ∧ tileset.first_gid ≤ gid then
      gtbg_loop gid rest (u32_as_i32 tileset.first_gid) (some tileset)
    else
      gtbg_loop gid rest maximum_gid maximum_ts

/-- Map.get_tileset_by_gid, map.rs lines 106-116. -/
def Map.get_tileset_by_gid (m : Map) (gid : Nat) : Option Tileset :=
  gtbg_loop gid m.tilesets (-1) none

/-- Map.get_tile_rectangle_by_id, map.rs lines 121-141.  Except.error ()
models a Rust panic: the division on line 127 panics when spacing plus
tile_width is zero as a u32, and the remainder and div_euclid on lines
130-131 panic when the computed column count is zero.  For unsigned
operands div_euclid coincides with plain division.  All u32 additions and
multiplications wrap as in a release build. -/
def Map.get_tile_rectangle_by_id (m : Map) (id : Nat) : Except Unit (Option (Nat × Nat × Nat × Nat)) :=
  match m.get_tileset_by_gid id with
  | none => Except.ok none
  | some tileset =>
    match tileset.images with
    | [] => Except.ok none
    | img :: _ =>
      let id1 := u32_sub id tileset.first_gid
      let denom := wrap32 (tileset.spacing + tileset.tile_width)
      if denom = 0 then Except.error ()
      else
        let columns := wrap32 img.width / denom
        if columns = 0 then Except.error ()
        else
          let xt := id1 % columns
          let yt := id1 / columns
          let x := wrap32 (tileset.margin + wrap32 (wrap32 (tileset.tile_width + tileset.spacing) * xt))
          let y := wrap32 (tileset.margin + wrap32 (wrap32 (tileset.tile_height + tileset.spacing) * yt))
          Except.ok (some (x, y, tileset.tile_width, tileset.tile_height))

/-- The child tags dispatched by the Map constructor, map.rs lines 63-87;
the spec §4.5 adds that any unrecognized child tag is silently skipped,
represented by the catch-all constructor. -/
inductive ChildTag where
  | tileset
  | layer
  | imagelayer
  | objectgroup
  | properties
  | other
deriving DecidableEq

/-- Modelled from the spec: the tag-dispatch loop of util.rs is not among
the provided sources; §4.5 dispatches each child start-tag in document
order to the handler of map.rs lines 63-87.  This function records, for
one run of the loop starting at the given layer_index, the tag and the
layer_index value passed to each Layer, ImageLayer and ObjectGroup
builder invocation in document order; the handlers for tileset and
properties do not touch layer_index. -/
def builderTrace : List ChildTag → Nat → List (ChildTag × Nat)
  | [], _ => []
  | ChildTag.layer :: rest, i => (ChildTag.layer, i) :: builderTrace rest (i + 1)
  | ChildTag.imagelayer :: rest, i => (ChildTag.imagelayer, i) :: builderTrace rest (i + 1)
  | ChildTag.objectgroup :: rest, i => (ChildTag.objectgroup, i) :: builderTrace rest (i + 1)
  | ChildTag.tileset :: rest, i => builderTrace rest i
  | ChildTag.properties :: rest, i => builderTrace rest i
  | ChildTag.other :: rest, i => builderTrace rest i

/-- Path.with_file_name used on lib.rs line 37: the final path component is
replaced by the given file name. -/
def with_file_name (path source : String) : String :=
  String.intercalate "/" ((path.splitOn "/").dropLast ++ [source])

/-- default_file_loader, lib.rs lines 33-42.  The filesystem is passed in
as a pure map from path to optional contents; a read failure surfaces as
the Other error of line 39 and a missing map path surfaces as the Other
error of line 36 before any filesystem access. -/
def default_file_loader (fs : String → Option (List Nat)) (map_path : Option String) :
    String → Except TiledError (List Nat) :=
  fun source =>
    match map_path with
    | none => Except.error (TiledError.Other
        "Maps with external tilesets must know their file location.  See parse_with_path(Path).")
    | some p =>
      let tileset_path := with_file_name p source
      match fs tileset_path with
      | some bytes => Except.ok bytes
      | none => Except.error (TiledError.Other
          ("Failed to read external tileset file: " ++ tileset_path))

/-- A tileset child of the map document: either declared inline or carrying
an external source reference, spec §4.4. -/
inductive TilesetRef where
  | inline (ts : Tileset)
  | external (source : String)
deriving DecidableEq

/-- Modelled from the spec: parse_impl and the Tileset constructor are not
among the provided sources; §4.4 and §7 prescribe that an external
reference invokes the loader once, decodes the returned bytes as a
standalone tileset document, and that every failure aborts the whole parse
immediately (fail-fast, first error wins). -/
def parse_map_tilesets (loader : String → Except TiledError (List Nat))
    (decode : List Nat → Except TiledError Tileset) :
    List TilesetRef → Except TiledError (List Tileset)
  | [] => Except.ok []
  | TilesetRef.inline ts :: rest =>
    match parse_map_tilesets loader decode rest with
    | Except.ok more => Except.ok (ts :: more)
    | Except.error e => Except.error e
  | TilesetRef.external source :: rest =>
    match loader source with
    | Except.error e => Except.error e
    | Except.ok bytes =>
      match decode bytes with
      | Except.error e => Except.error e
      | Except.ok ts =>
        match parse_map_tilesets loader decode rest with
        | Except.ok more => Except.ok (ts :: more)
        | Except.error e => Except.error e

-- Decidable equality for Except values, used to evaluate the embedded
-- operations on concrete inputs.
deriving instance DecidableEq for Except

/-- A tileset with first_gid 1 and no image, the first of the three
tilesets of the worked example of spec §8 item 3. -/
def exTs1 : Tileset :=
  { first_gid := 1, tile_width := 32, tile_height := 32, spacing := 0, margin := 0, images := [] }

/-- A tileset with first_gid 50 and no image. -/
def exTs50 : Tileset :=
  { first_gid := 50, tile_width := 32, tile_height := 32, spacing := 0, margin := 0, images := [] }

/-- A tileset with first_gid 100 and no image. -/
def exTs100 : Tileset :=
  { first_gid := 100, tile_width := 32, tile_height := 32, spacing := 0, margin := 0, images := [] }

/-- The map with tilesets at first_gid 1, 50 and 100 of spec §8 item 3. -/
def exMap : Map :=
  { version := "1.0", orientation := Orientation.Orthogonal, width := 100, height := 100,
    tile_width := 32, tile_height := 32, tilesets := [exTs1, exTs50, exTs100], infinite := false }

/-- A 256 pixel wide image, eight 32-pixel columns, spec §8 item 4. -/
def exImg : Image := { width := 256, height := 256 }

/-- The tileset of spec §8 item 4: 32 by 32 tiles, no spacing, no margin,
one 256 pixel wide image. -/
def exTsImg : Tileset :=
  { first_gid := 1, tile_width := 32, tile_height := 32, spacing := 0, margin := 0,
    images := [exImg] }

/-- A map holding only the tileset of spec §8 item 4. -/
def exMapImg : Map :=
  { version := "1.0", orientation := Orientation.Orthogonal, width := 8, height := 8,
    tile_width := 32, tile_height := 32, tilesets := [exTsImg], infinite := false }

/-- A tileset whose first_gid is 2^31, the smallest u32 whose cast to i32
is negative. -/
def bigTs : Tileset :=
  { first_gid := 2147483648, tile_width := 1, tile_height := 1, spacing := 0, margin := 0,
    images := [] }

/-- A map holding only the tileset with first_gid 2^31. -/
def bigMap : Map :=
  { version := "1.0", orientation := Orientation.Orthogonal, width := 1, height := 1,
    tile_width := 1, tile_height := 1, tilesets := [bigTs], infinite := false }

/-- First of two tilesets sharing first_gid 5, distinguishable by tile
size. -/
def tieTs1 : Tileset :=
  { first_gid := 5, tile_width := 16, tile_height := 16, spacing := 0, margin := 0, images := [] }

/-- Second of two tilesets sharing first_gid 5. -/
def tieTs2 : Tileset :=
  { first_gid := 5, tile_width := 64, tile_height := 64, spacing := 0, margin := 0, images := [] }

/-- A map with two tilesets sharing the same first_gid. -/
def tieMap : Map :=
  { version := "1.0", orientation := Orientation.Orthogonal, width := 1, height := 1,
    tile_width := 16, tile_height := 16, tilesets := [tieTs1, tieTs2], infinite := false }

/-- A one pixel wide image. -/
def ovImg : Image := { width := 1, height := 1 }

/-- A tileset whose margin is the largest u32 value, so that the pixel row
computation wraps around the u32 range. -/
def ovTs : Tileset :=
  { first_gid := 1, tile_width := 1, tile_height := 1, spacing := 0, margin := 4294967295,
    images := [ovImg] }

/-- A map holding only the maximal-margin tileset. -/
def ovMap : Map :=
  { version := "1.0", orientation := Orientation.Orthogonal, width := 1, height := 1,
    tile_width := 1, tile_height := 1, tilesets := [ovTs], infinite := false }

/-- A 16 pixel wide image, narrower than one 32 pixel tile. -/
def narrowImg : Image := { width := 16, height := 16 }

/-- A tileset whose image is narrower than one tile, giving a column count
of zero. -/
def narrowTs : Tileset :=
  { first_gid := 1, tile_width := 32, tile_height := 32, spacing := 0, margin := 0,
    images := [narrowImg] }

/-- A map holding only the narrow-image tileset. -/
def narrowMap : Map :=
  { version := "1.0", orientation := Orientation.Orthogonal, width := 1, height := 1,
    tile_width := 32, tile_height := 32, tilesets := [narrowTs], infinite := false }

/-- An image for the zero-tile-size tileset. -/
def zeroImg : Image := { width := 256, height := 256 }

/-- A tileset whose tile width and spacing are both zero, making the
column divisor zero. -/
def zeroTs : Tileset :=
  { first_gid := 1, tile_width := 0, tile_height := 0, spacing := 0, margin := 0,
    images := [zeroImg] }

/-- A map holding only the zero-tile-size tileset. -/
def zeroMap : Map :=
  { version := "1.0", orientation := Orientation.Orthogonal, width := 1, height := 1,
    tile_width := 0, tile_height := 0, tilesets := [zeroTs], infinite := false }

/-- Claim C4: during Map parsing the layer_index values passed to the
layer, imagelayer and objectgroup builders form the strictly increasing
sequence 0, 1, 2, ... in document order across the three element kinds
combined, and a tileset or properties child neither consumes nor advances
an index. -/
theorem layer_index_strictly_increasing :
    (∀ tags : List ChildTag,
      (builderTrace tags 0).map Prod.snd = List.range (builderTrace tags 0).length) ∧
    (∀ (tags : List ChildTag) (i : Nat),
      builderTrace (ChildTag.tileset :: tags) i = builderTrace tags i ∧
      builderTrace (ChildTag.properties :: tags) i = builderTrace tags i) := by
  constructor
  · have key : ∀ (tags : List ChildTag) (i : Nat),
        (builderTrace tags i).map Prod.snd = List.range' i (builderTrace tags i).length := by
      intro tags
      induction tags with
      | nil => intro i; simp [builderTrace]
      | cons t rest ih =>
        intro i
        cases t <;> simp [builderTrace, ih, List.range'_succ]
    intro tags
    rw [List.range_eq_range']
    exact key tags 0
  · intro tags i
    exact ⟨rfl, rfl⟩

/-- Claim C5: orientation parsing is an exact case-sensitive match sending
each of the four lowercase tokens to its distinct Orientation value, every
other string to the OrientationError, and to_string emits the token that
re-parses to the same value. -/
theorem orientation_parse_spec :
    (∀ o : Orientation, Orientation.from_str (Orientation.to_string o) = Except.ok o) ∧
    (∀ s : String,
      (Orientation.from_str s = Except.ok Orientation.Orthogonal ↔ s = "orthogonal") ∧
      (Orientation.from_str s = Except.ok Orientation.Isometric ↔ s = "isometric") ∧
      (Orientation.from_str s = Except.ok Orientation.Staggered ↔ s = "staggered") ∧
      (Orientation.from_str s = Except.ok Orientation.Hexagonal ↔ s = "hexagonal") ∧
      (Orientation.from_str s = Except.error ParseTileError.OrientationError ↔
        ¬(s = "orthogonal" ∨ s = "isometric" ∨ s = "staggered" ∨ s = "hexagonal"))) := by
  constructor
  · intro o
    cases o <;> rfl
  · intro s
    unfold Orientation.from_str
    split_ifs with h1 h2 h3 h4 <;> simp_all

/-- Claim C6: the Frame constructor succeeds exactly when the attribute
list supplies both a tileid and a duration attribute whose values parse as
unsigned integers, and fails with the MalformedAttributes error when
either is missing or unparsable. -/
theorem frame_new_spec :
    (∀ attrs : List (String × String),
      (∀ t d : Nat,
        Frame.new attrs = Except.ok { tile_id := t, duration := d } ↔
          ((getAttr attrs "tileid").bind parseU32 = some t ∧
           (getAttr attrs "duration").bind parseU32 = some d)) ∧
      (Frame.new attrs =
          Except.error (TiledError.MalformedAttributes "A frame must have tileid and duration") ↔
        ((getAttr attrs "tileid").bind parseU32 = none ∨
         (getAttr attrs "duration").bind parseU32 = none))) ∧
    Frame.new [("tileid", "3"), ("duration", "100")] =
      Except.ok { tile_id := 3, duration := 100 } ∧
    Frame.new [("duration", "100")] =
      Except.error (TiledError.MalformedAttributes "A frame must have tileid and duration") ∧
    Frame.new [("tileid", "3"), ("duration", "12cm")] =
      Except.error (TiledError.MalformedAttributes "A frame must have tileid and duration") := by
  refine ⟨?_, by decide, by decide, by decide⟩
  intro attrs
  constructor
  · intro t d
    cases h1 : (getAttr attrs "tileid").bind parseU32 <;>
      cases h2 : (getAttr attrs "duration").bind parseU32 <;>
        simp [Frame.new, h1, h2, Frame.mk.injEq]
  · cases h1 : (getAttr attrs "tileid").bind parseU32 <;>
      cases h2 : (getAttr attrs "duration").bind parseU32 <;>
        simp [Frame.new, h1, h2]

/-- Claim C10: the infinite flag is true exactly when the infinite
attribute is present with the exact string value 1; absence and any other
value, the string true included, give false, never an error. -/
theorem map_infinite_spec :
    (∀ attrs : List (String × String),
      (map_infinite attrs = true ↔ getAttr attrs "infinite" = some "1")) ∧
    map_infinite [] = false ∧
    map_infinite [("infinite", "true")] = false ∧
    map_infinite [("infinite", "0")] = false ∧
    map_infinite [("infinite", "1")] = true := by
  refine ⟨?_, rfl, rfl, rfl, rfl⟩
  intro attrs
  cases h : getAttr attrs "infinite" with
  | none => simp [map_infinite, h]
  | some v => simp [map_infinite, h]

/-- With the path-less loader every external reference fails with the
fixed Other error before any filesystem access: helper for claim C7. -/
theorem parse_map_tilesets_err_of_external (fs : String → Option (List Nat))
    (decode : List Nat → Except TiledError Tileset) :
    ∀ refs : List TilesetRef, (∃ s, TilesetRef.external s ∈ refs) →
      parse_map_tilesets (default_file_loader fs none) decode refs =
        Except.error (TiledError.Other
          "Maps with external tilesets must know their file location.  See parse_with_path(Path).") := by
  intro refs
  induction refs with
  | nil =>
    rintro ⟨s, hs⟩
    cases hs
  | cons r rest ih =>
    rintro ⟨s, hs⟩
    cases r with
    | inline ts =>
      have hrest : ∃ s, TilesetRef.external s ∈ rest := by
        rcases List.mem_cons.mp hs with h | h
        · exact TilesetRef.noConfusion h
        · exact ⟨s, h⟩
      simp [parse_map_tilesets, ih hrest]
    | external src =>
      simp [parse_map_tilesets, default_file_loader]

/-- A document without an external tileset reference parses to some list
of tilesets under any loader: helper for claim C7. -/
theorem parse_map_tilesets_ok_of_no_external (loader : String → Except TiledError (List Nat))
    (decode : List Nat → Except TiledError Tileset) :
    ∀ refs : List TilesetRef, (∀ s, TilesetRef.external s ∉ refs) →
      ∃ l, parse_map_tilesets loader decode refs = Except.ok l := by
  intro refs
  induction refs with
  | nil => exact fun _ => ⟨[], rfl⟩
  | cons r rest ih =>
    intro h
    cases r with
    | inline ts =>
      obtain ⟨l, hl⟩ := ih (fun s hs => h s (List.mem_cons_of_mem _ hs))
      exact ⟨ts :: l, by simp [parse_map_tilesets, hl]⟩
    | external src =>
      exact absurd (List.mem_cons_self _ _) (h src)

/-- Claim C7: parsing from a byte stream with no path context fails on a
document referencing an external tileset with the Other error directing
the caller to the path-aware entry point, and succeeds in finding no such
error exactly when no external reference occurs, independently of the
filesystem contents. -/
theorem parse_without_path_external_tileset_fails :
    ∀ (fs : String → Option (List Nat)) (decode : List Nat → Except TiledError Tileset)
      (refs : List TilesetRef),
      parse_map_tilesets (default_file_loader fs none) decode refs =
          Except.error (TiledError.Other
            "Maps with external tilesets must know their file location.  See parse_with_path(Path).") ↔
        ∃ s, TilesetRef.external s ∈ refs := by
  intro fs decode refs
  constructor
  · intro h
    by_contra hne
    push_neg at hne
    obtain ⟨l, hl⟩ := parse_map_tilesets_ok_of_no_external (default_file_loader fs none) decode refs hne
    rw [hl] at h
    exact Except.noConfusion h
  · exact parse_map_tilesets_err_of_external fs decode refs

/-- Claim C3: the rectangle computation panics on degenerate tilesets: a
zero tile width with zero spacing divides by zero, and an image narrower
than one tile gives a zero column count and a remainder by zero; both are
modelled as the error outcome. -/
theorem get_tile_rectangle_panics_on_degenerate :
    zeroMap.get_tile_rectangle_by_id 1 = Except.error () ∧
    narrowMap.get_tile_rectangle_by_id 1 = Except.error () := by
  exact ⟨rfl, rfl⟩

/-- Counterexample for claim C1: a tileset whose first_gid is 2^31 is a
member of the map and qualifies for gid 2^31, yet the lookup returns none
because the cast of its first_gid to i32 is negative. -/
theorem get_tileset_by_gid_large_first_gid_cex :
    bigTs ∈ bigMap.tilesets ∧ bigTs.first_gid ≤ 2147483648 ∧
    bigMap.get_tileset_by_gid 2147483648 = none := by
  decide

/-- Counterexample for claim C8: with two distinct tilesets sharing the
qualifying first_gid 5, the lookup returns the tileset declared first, not
the one declared last. -/
theorem get_tileset_by_gid_tie_cex :
    tieMap.tilesets = [tieTs1, tieTs2] ∧
    tieTs1.first_gid = tieTs2.first_gid ∧ tieTs2.first_gid ≤ 5 ∧
    tieTs1 ≠ tieTs2 ∧
    tieMap.get_tileset_by_gid 5 = some tieTs1 := by
  decide

/-- Counterexample for claim C2: first, a maximal margin makes the pixel
row wrap around the u32 range, so the returned row 0 differs from the
exact arithmetic of the claimed formula; second, an image narrower than
one tile makes the computation panic instead of returning a rectangle,
although the gid resolves to a tileset with an image. -/
theorem get_tile_rectangle_overflow_cex :
    (ovMap.get_tileset_by_gid 2 = some ovTs ∧ ovTs.images ≠ [] ∧
      ovMap.get_tile_rectangle_by_id 2 = Except.ok (some (4294967295, 0, 1, 1)) ∧
      ovTs.margin + (ovTs.tile_height + ovTs.spacing) *
          ((2 - ovTs.first_gid) / (ovImg.width / (ovTs.spacing + ovTs.tile_width))) ≠ 0) ∧
    (narrowMap.get_tileset_by_gid 1 = some narrowTs ∧ narrowTs.images ≠ [] ∧
      narrowMap.get_tile_rectangle_by_id 1 = Except.error ()) := by
  decide

/-- The i32 cast is the identity below 2^31. -/
theorem u32_as_i32_of_lt {n : Nat} (h : n < 2147483648) : u32_as_i32 n = (n : Int) := by
  unfold u32_as_i32
  rw [Nat.mod_eq_of_lt (lt_trans h (by norm_num))]
  simp [h]

/-- Wrapping u32 subtraction is exact subtraction when no underflow
occurs. -/
theorem u32_sub_eq_sub {a b : Nat} (hb : b ≤ a) (ha : a < 4294967296) :
    u32_sub a b = a - b := by
  unfold u32_sub wrap32
  rw [Nat.mod_eq_of_lt ha, Nat.mod_eq_of_lt (lt_of_le_of_lt hb ha)]
  omega

/-- Collapsing the nested u32 wraps of the pixel coordinate computation
into a single reduction modulo 2^32. -/
theorem wrap32_add_mul (a b c : Nat) :
    wrap32 (a + wrap32 (wrap32 b * c)) = (a + b * c) % 4294967296 :=
  Nat.ModEq.add_left a ((Nat.mod_modEq _ _).trans ((Nat.mod_modEq b _).mul_right c))

/-- If no tileset qualifies for the gid, the scan loop keeps its initial
accumulator. -/
theorem gtbg_loop_none (gid : Nat) :
    ∀ (l : List Tileset) (mg : Int) (best : Option Tileset),
      (∀ t ∈ l, ¬ t.first_gid ≤ gid) → gtbg_loop gid l mg best = best := by
  intro l
  induction l with
  | nil => intro mg best _; rfl
  | cons x rest ih =>
    intro mg best h
    have hx := h x (List.mem_cons_self x rest)
    simp only [gtbg_loop]
    rw [if_neg (fun hc => hx hc.2)]
    exact ih mg best (fun t ht => h t (List.mem_cons_of_mem x ht))

/-- Once the accumulator holds a tileset the scan loop returns a
tileset. -/
theorem gtbg_loop_isSome (gid : Nat) :
    ∀ (l : List Tileset) (mg : Int) (b : Tileset),
      ∃ ts, gtbg_loop gid l mg (some b) = some ts := by
  intro l
  induction l with
  | nil => intro mg b; exact ⟨b, rfl⟩
  | cons x rest ih =>
    intro mg b
    simp only [gtbg_loop]
    by_cases hcond : u32_as_i32 x.first_gid > mg ∧ x.first_gid ≤ gid
    · rw [if_pos hcond]; exact ih _ x
    · rw [if_neg hcond]; exact ih mg b

/-- If some listed tileset qualifies and its first_gid is in the i32-safe
range, the scan loop returns a tileset. -/
theorem gtbg_loop_some_of_mem (gid : Nat) :
    ∀ (l : List Tileset) (mg : Int) (best : Option Tileset),
      (best = none → mg = -1) →
      ∀ t ∈ l, t.first_gid ≤ gid → t.first_gid < 2147483648 →
      ∃ ts, gtbg_loop gid l mg best = some ts := by
  intro l
  induction l with
  | nil =>
    intro mg best _ t ht
    exact absurd ht (List.not_mem_nil t)
  | cons x rest ih =>
    intro mg best hinv t ht hle hlt
    simp only [gtbg_loop]
    by_cases hcond : u32_as_i32 x.first_gid > mg ∧ x.first_gid ≤ gid
    · rw [if_pos hcond]
      exact gtbg_loop_isSome gid rest _ x
    · rw [if_neg hcond]
      rcases List.mem_cons.mp ht with rfl | hmem
      · have h2 : ¬ u32_as_i32 t.first_gid > mg := fun hgt => hcond ⟨hgt, hle⟩
        rw [u32_as_i32_of_lt hlt] at h2
        have hmg : (0 : Int) ≤ mg := le_trans (Int.natCast_nonneg _) (not_lt.mp h2)
        cases hb : best with
        | none => exact absurd (hinv hb) (by omega)
        | some b => exact gtbg_loop_isSome gid rest mg b
      · exact ih mg best hinv t hmem hle hlt

/-- Any property that holds of the initial accumulator and of every
qualifying listed tileset holds of the tileset the scan loop returns. -/
theorem gtbg_loop_sound (gid : Nat) (P : Tileset → Prop) :
    ∀ (l : List Tileset) (mg : Int) (best : Option Tileset),
      (∀ b, best = some b → P b) → (∀ t ∈ l, t.first_gid ≤ gid → P t) →
      ∀ ts, gtbg_loop gid l mg best = some ts → P ts := by
  intro l
  induction l with
  | nil =>
    intro mg best hb _ ts hts
    exact hb ts hts
  | cons x rest ih =>
    intro mg best hb hl ts hts
    simp only [gtbg_loop] at hts
    by_cases hcond : u32_as_i32 x.first_gid > mg ∧ x.first_gid ≤ gid
    · rw [if_pos hcond] at hts
      exact ih _ (some x)
        (fun b hb' => by cases hb'; exact hl x (List.mem_cons_self x rest) hcond.2)
        (fun t htm hq => hl t (List.mem_cons_of_mem x htm) hq) ts hts
    · rw [if_neg hcond] at hts
      exact ih mg best hb (fun t htm hq => hl t (List.mem_cons_of_mem x htm) hq) ts hts

/-- The scan loop result dominates the running maximum and, in i32 terms,
every qualifying listed tileset. -/
theorem gtbg_loop_max (gid : Nat) :
    ∀ (l : List Tileset) (mg : Int) (best : Option Tileset),
      (∀ b, best = some b → u32_as_i32 b.first_gid = mg) →
      ∀ ts, gtbg_loop gid l mg best = some ts →
        mg ≤ u32_as_i32 ts.first_gid ∧
        ∀ t ∈ l, t.first_gid ≤ gid → u32_as_i32 t.first_gid ≤ u32_as_i32 ts.first_gid := by
  intro l
  induction l with
  | nil =>
    intro mg best hinv ts hts
    exact ⟨le_of_eq (hinv ts hts).symm, fun t ht => absurd ht (List.not_mem_nil t)⟩
  | cons x rest ih =>
    intro mg best hinv ts hts
    simp only [gtbg_loop] at hts
    by_cases hcond : u32_as_i32 x.first_gid > mg ∧ x.first_gid ≤ gid
    · rw [if_pos hcond] at hts
      have ih' := ih (u32_as_i32 x.first_gid) (some x) (fun b hb => by cases hb; rfl) ts hts
      refine ⟨le_trans (le_of_lt hcond.1) ih'.1, ?_⟩
      intro t ht hle
      rcases List.mem_cons.mp ht with rfl | hmem
      · exact ih'.1
      · exact ih'.2 t hmem hle
    · rw [if_neg hcond] at hts
      have ih' := ih mg best hinv ts hts
      refine ⟨ih'.1, ?_⟩
      intro t ht hle
      rcases List.mem_cons.mp ht with rfl | hmem
      · have h2 : ¬ u32_as_i32 t.first_gid > mg := fun hgt => hcond ⟨hgt, hle⟩
        exact le_trans (not_lt.mp h2) ih'.1
      · exact ih'.2 t hmem hle

/-- The scan loop either returns its initial accumulator or a tileset
whose i32 first_gid strictly exceeds the initial running maximum. -/
theorem gtbg_loop_gt (gid : Nat) :
    ∀ (l : List Tileset) (mg : Int) (best : Option Tileset) (ts : Tileset),
      gtbg_loop gid l mg best = some ts →
      best = some ts ∨ mg < u32_as_i32 ts.first_gid := by
  intro l
  induction l with
  | nil => intro mg best ts hts; exact Or.inl hts
  | cons x rest ih =>
    intro mg best ts hts
    simp only [gtbg_loop] at hts
    by_cases hcond : u32_as_i32 x.first_gid > mg ∧ x.first_gid ≤ gid
    · rw [if_pos hcond] at hts
      rcases ih _ _ _ hts with heq | hlt
      · have hx : x = ts := Option.some.inj heq
        exact Or.inr (hx ▸ hcond.1)
      · exact Or.inr (lt_trans hcond.1 hlt)
    · rw [if_neg hcond] at hts
      exact ih mg best ts hts

/-- On equal first_gid values the strict comparison of the scan loop keeps
the earlier tileset: the result is the first listed tileset bearing its
first_gid, unless it was already the initial accumulator. -/
theorem gtbg_loop_first (gid : Nat) :
    ∀ (l : List Tileset) (mg : Int) (best : Option Tileset),
      (∀ b, best = some b → u32_as_i32 b.first_gid = mg) →
      (∀ b, best = some b → b.first_gid ≤ gid) →
      ∀ ts, gtbg_loop gid l mg best = some ts →
        best = some ts ∨ l.find? (fun t => t.first_gid == ts.first_gid) = some ts := by
  intro l
  induction l with
  | nil => intro mg best _ _ ts hts; exact Or.inl hts
  | cons x rest ih =>
    intro mg best hinv1 hinv2 ts hts
    simp only [gtbg_loop] at hts
    by_cases hcond : u32_as_i32 x.first_gid > mg ∧ x.first_gid ≤ gid
    · rw [if_pos hcond] at hts
      rcases gtbg_loop_gt gid rest (u32_as_i32 x.first_gid) (some x) ts hts with heq | hlt
      · have hx : x = ts := Option.some.inj heq
        subst hx
        exact Or.inr (List.find?_cons_of_pos _ (by simp))
      · have hne : x.first_gid ≠ ts.first_gid :=
          fun hfg => absurd (congrArg u32_as_i32 hfg) (ne_of_lt hlt)
        rcases ih (u32_as_i32 x.first_gid) (some x)
            (fun b hb => by cases hb; rfl)
            (fun b hb => by cases hb; exact hcond.2) ts hts with heq2 | hfind
        · exact absurd (congrArg Tileset.first_gid (Option.some.inj heq2)) hne
        · exact Or.inr ((List.find?_cons_of_neg _ (by simp [hne])).trans hfind)
    · rw [if_neg hcond] at hts
      rcases ih mg best hinv1 hinv2 ts hts with heq | hfind
      · exact Or.inl heq
      · by_cases hfg : x.first_gid = ts.first_gid
        · rcases gtbg_loop_gt gid rest mg best ts hts with heqb | hmg
          · exact Or.inl heqb
          · have hle : ts.first_gid ≤ gid :=
              gtbg_loop_sound gid (fun t => t.first_gid ≤ gid) rest mg best hinv2
                (fun t _ hq => hq) ts hts
            have hgtx : u32_as_i32 x.first_gid > mg := by
              rw [hfg]; exact hmg
            exact absurd ⟨hgtx, hfg ▸ hle⟩ hcond
        · exact Or.inr ((List.find?_cons_of_neg _ (by simp [hfg])).trans hfind)

/-- A returned tileset always satisfies the qualification test of the scan
loop. -/
theorem get_tileset_by_gid_first_gid_le (m : Map) (gid : Nat) (ts : Tileset)
    (hts : m.get_tileset_by_gid gid = some ts) : ts.first_gid ≤ gid :=
  gtbg_loop_sound gid (fun t => t.first_gid ≤ gid) m.tilesets (-1) none
    (fun _ hb => Option.noConfusion hb) (fun _ _ hq => hq) ts hts

/-- Claim C1 (amended): for a map whose tilesets all have first_gid below
2^31 the lookup returns none exactly when the gid is below every
first_gid, and a returned tileset is a member whose first_gid is the
largest one not exceeding the gid; the worked example with first_gid
values 1, 50 and 100 behaves as stated.  Without the bound the i32 cast
of the implementation makes tilesets with first_gid at or above 2^31
unreachable. -/
theorem get_tileset_by_gid_spec :
    (∀ (m : Map) (gid : Nat),
      (∀ t ∈ m.tilesets, t.first_gid < 2147483648) →
      ((m.get_tileset_by_gid gid = none ↔ ∀ t ∈ m.tilesets, gid < t.first_gid) ∧
       (∀ ts, m.get_tileset_by_gid gid = some ts →
         ts ∈ m.tilesets ∧ ts.first_gid ≤ gid ∧
         ∀ t ∈ m.tilesets, t.first_gid ≤ gid → t.first_gid ≤ ts.first_gid))) ∧
    (exMap.tilesets = [exTs1, exTs50, exTs100] ∧
     exTs1.first_gid = 1 ∧ exTs50.first_gid = 50 ∧ exTs100.first_gid = 100 ∧
     exMap.get_tileset_by_gid 49 = some exTs1 ∧
     exMap.get_tileset_by_gid 50 = some exTs50 ∧
     exMap.get_tileset_by_gid 99 = some exTs50 ∧
     exMap.get_tileset_by_gid 0 = none) := by
  constructor
  · intro m gid hb
    constructor
    · constructor
      · intro hnone t ht
        by_contra hlt
        push_neg at hlt
        obtain ⟨ts, hts⟩ := gtbg_loop_some_of_mem gid m.tilesets (-1) none
          (fun _ => rfl) t ht hlt (hb t ht)
        unfold Map.get_tileset_by_gid at hnone
        rw [hnone] at hts
        exact Option.noConfusion hts
      · intro hall
        exact gtbg_loop_none gid m.tilesets (-1) none
          (fun t ht => not_le.mpr (hall t ht))
    · intro ts hts
      unfold Map.get_tileset_by_gid at hts
      have hmq := gtbg_loop_sound gid (fun t => t ∈ m.tilesets ∧ t.first_gid ≤ gid)
        m.tilesets (-1) none (fun _ hb' => Option.noConfusion hb')
        (fun t ht hq => ⟨ht, hq⟩) ts hts
      have hmax := gtbg_loop_max gid m.tilesets (-1) none
        (fun _ hb' => Option.noConfusion hb') ts hts
      refine ⟨hmq.1, hmq.2, ?_⟩
      intro t ht hle
      have h1 := hmax.2 t ht hle
      rw [u32_as_i32_of_lt (hb t ht), u32_as_i32_of_lt (hb ts hmq.1)] at h1
      exact_mod_cast h1
  · exact ⟨by decide, by decide, by decide, by decide, by decide, by decide, by decide, by decide⟩

/-- Witness for claim C1: the amended statement instantiated at the worked
example map and gid 49, with the 2^31 bound discharged. -/
theorem get_tileset_by_gid_spec_witness :
    (∀ t ∈ exMap.tilesets, t.first_gid < 2147483648) ∧
    ((exMap.get_tileset_by_gid 49 = none ↔ ∀ t ∈ exMap.tilesets, 49 < t.first_gid) ∧
     (∀ ts, exMap.get_tileset_by_gid 49 = some ts →
       ts ∈ exMap.tilesets ∧ ts.first_gid ≤ 49 ∧
       ∀ t ∈ exMap.tilesets, t.first_gid ≤ 49 → t.first_gid ≤ ts.first_gid)) :=
  ⟨by decide, get_tileset_by_gid_spec.1 exMap 49 (by decide)⟩

/-- Claim C8 (amended): on a shared first_gid the lookup tie-breaks toward
the tileset declared first: any returned tileset is the first element of
the tilesets vector bearing its first_gid value. -/
theorem get_tileset_by_gid_tie_first :
    ∀ (m : Map) (gid : Nat) (ts : Tileset),
      m.get_tileset_by_gid gid = some ts →
      m.tilesets.find? (fun t => t.first_gid == ts.first_gid) = some ts := by
  intro m gid ts hts
  unfold Map.get_tileset_by_gid at hts
  rcases gtbg_loop_first gid m.tilesets (-1) none
    (fun _ hb => Option.noConfusion hb) (fun _ hb => Option.noConfusion hb) ts hts with h | h
  · exact Option.noConfusion h
  · exact h

/-- Witness for claim C8: the tie-break instantiated at the map with two
tilesets sharing first_gid 5. -/
theorem get_tileset_by_gid_tie_first_witness :
    tieMap.get_tileset_by_gid 5 = some tieTs1 ∧
    tieMap.tilesets.find? (fun t => t.first_gid == tieTs1.first_gid) = some tieTs1 :=
  ⟨by decide, get_tileset_by_gid_tie_first tieMap 5 tieTs1 (by decide)⟩

/-- Claim C9: a tileset returned by the gid lookup always satisfies
first_gid at most gid, so the local-index subtraction of the rectangle
computation is exact and never underflows. -/
theorem get_tileset_by_gid_le :
    ∀ (m : Map) (gid : Nat) (ts : Tileset),
      m.get_tileset_by_gid gid = some ts →
      ts.first_gid ≤ gid ∧
      (gid < 4294967296 → u32_sub gid ts.first_gid = gid - ts.first_gid) := by
  intro m gid ts hts
  have hle := get_tileset_by_gid_first_gid_le m gid ts hts
  exact ⟨hle, fun hgid => u32_sub_eq_sub hle hgid⟩

/-- Witness for claim C9: instantiated at the worked example map and gid
49. -/
theorem get_tileset_by_gid_le_witness :
    exMap.get_tileset_by_gid 49 = some exTs1 ∧
    exTs1.first_gid ≤ 49 ∧ u32_sub 49 exTs1.first_gid = 49 - exTs1.first_gid := by
  have h : exMap.get_tileset_by_gid 49 = some exTs1 := by decide
  have h2 := get_tileset_by_gid_le exMap 49 exTs1 h
  exact ⟨h, h2.1, h2.2 (by norm_num)⟩

/-- Claim C2 (amended): when the gid resolves to a tileset whose image
list is nonempty, the inputs are u32 values, the column divisor spacing
plus tile_width is nonzero and the column count is nonzero, the rectangle
is Some of x, y, tile_width and tile_height with x and y given by the
margin-spacing grid formulas taken modulo 2^32 (wrapping u32 arithmetic);
in particular the 32 by 32 tileset over a 256 pixel wide image sends gid
10, local index 9, to the rectangle 32, 32, 32, 32. -/
theorem get_tile_rectangle_by_id_spec :
    (∀ (m : Map) (gid : Nat) (ts : Tileset) (img : Image) (rest : List Image),
      m.get_tileset_by_gid gid = some ts →
      ts.images = img :: rest →
      gid < 4294967296 →
      img.width < 4294967296 →
      ts.spacing + ts.tile_width < 4294967296 →
      0 < ts.spacing + ts.tile_width →
      0 < img.width / (ts.spacing + ts.tile_width) →
      m.get_tile_rectangle_by_id gid =
        Except.ok (some (
          (ts.margin + (ts.tile_width + ts.spacing) *
            ((gid - ts.first_gid) % (img.width / (ts.spacing + ts.tile_width)))) % 4294967296,
          (ts.margin + (ts.tile_height + ts.spacing) *
            ((gid - ts.first_gid) / (img.width / (ts.spacing + ts.tile_width)))) % 4294967296,
          ts.tile_width, ts.tile_height))) ∧
    exMapImg.get_tile_rectangle_by_id 10 = Except.ok (some (32, 32, 32, 32)) := by
  constructor
  · intro m gid ts img rest hget himg hgid hw hsumlt hsumpos hcols
    have hle : ts.first_gid ≤ gid := get_tileset_by_gid_first_gid_le m gid ts hget
    have hid1 : u32_sub gid ts.first_gid = gid - ts.first_gid := u32_sub_eq_sub hle hgid
    have hdenom : wrap32 (ts.spacing + ts.tile_width) = ts.spacing + ts.tile_width :=
      Nat.mod_eq_of_lt hsumlt
    have hwidth : wrap32 img.width = img.width := Nat.mod_eq_of_lt hw
    simp only [Map.get_tile_rectangle_by_id, hget, himg, hid1, hdenom, hwidth]
    rw [if_neg (Nat.pos_iff_ne_zero.mp hsumpos), if_neg (Nat.pos_iff_ne_zero.mp hcols)]
    rw [wrap32_add_mul, wrap32_add_mul]
  · decide

/-- Witness for claim C2: the amended statement instantiated at the worked
example tileset, gid 10, with every hypothesis discharged. -/
theorem get_tile_rectangle_by_id_spec_witness :
    (exMapImg.get_tileset_by_gid 10 = some exTsImg ∧
     exTsImg.images = exImg :: [] ∧
     10 < 4294967296 ∧
     exImg.width < 4294967296 ∧
     exTsImg.spacing + exTsImg.tile_width < 4294967296 ∧
     0 < exTsImg.spacing + exTsImg.tile_width ∧
     0 < exImg.width / (exTsImg.spacing + exTsImg.tile_width)) ∧
    exMapImg.get_tile_rectangle_by_id 10 =
      Except.ok (some (
        (exTsImg.margin + (exTsImg.tile_width + exTsImg.spacing) *
          ((10 - exTsImg.first_gid) %
            (exImg.width / (exTsImg.spacing + exTsImg.tile_width)))) % 4294967296,
        (exTsImg.margin + (exTsImg.tile_height + exTsImg.spacing) *
          ((10 - exTsImg.first_gid) /
            (exImg.width / (exTsImg.spacing + exTsImg.tile_width)))) % 4294967296,
        exTsImg.tile_width, exTsImg.tile_height)) :=
  ⟨⟨by decide, rfl, by norm_num, by decide, by decide, by decide, by decide⟩,
   get_tile_rectangle_by_id_spec.1 exMapImg 10 exTsImg exImg [] (by decide) rfl
     (by norm_num) (by decide) (by decide) (by decide) (by decide)⟩

end Tiled
